import Mathlib

/-!
Verification of the zkcpp client core (completion routing, watch dispatch,
thread startup barrier, reference counter, synchronous adapter, multi-op
records) against its natural-language specification.

The definitions below are shallow embeddings of:
  - `src/contrib/zkcpp/include/zookeeper/logging.hh` (the concatenated
    `ZooKeeperImpl` implementation: completion adapters, watch dispatch,
    init/close, blocking exists),
  - `src/contrib/zkcpp/src/mt_adaptor.c` (threaded adaptor: startup barrier,
    completion thread loop, `inc_ref_counter` / `fetch_and_add`),
  - the multi-op record file (`Op`, `Op::Create`, `Op::Remove`, `Op::SetData`,
    `Op::Check`).

Machine integers are modelled as `Int` with explicit 32-bit wrapping where
overflow matters.  C pointers that may be NULL are modelled as `Option`;
a C `assert` failure (process abort) is modelled by an `Option` result being
`none`.  Polymorphic user callback objects are modelled by their presence
(the `shared_ptr.get() != NULL` test) plus a record of the exact arguments
the adapter hands them.
-/

namespace ZkCpp

/-- `ReturnCode` values produced by `ZooKeeperImpl::init` / `close`
(`Ok` on success, `Error` on failure).  The enum lives in `ZooKeeperImpl.h`;
only these two constructors are needed by the embedded functions. -/
inductive ReturnCode where
  | Ok
  | Error
deriving DecidableEq, Repr

/-- The integer result code delivered by the C engine to completion
adapters; `Ok` corresponds to `ZOK = 0` from `zookeeper.h`. -/
def rcOk : Int := 0

/-- `struct Stat` from the wire layer (fields as logged by
`ExistsCallback::processResult`). -/
structure Stat where
  czxid : Int
  mzxid : Int
  ctime : Int
  mtime : Int
  version : Int
  cversion : Int
  aversion : Int
  ephemeralOwner : Int
  dataLength : Int
  numChildren : Int
  pzxid : Int
deriving DecidableEq, Repr

/-- An all-zero `Stat`, used to model a default/indeterminate local
`Stat statCopy` that is passed along without being filled from engine
data (the claims proved below never depend on its field values). -/
def statZero : Stat :=
  { czxid := 0, mzxid := 0, ctime := 0, mtime := 0, version := 0,
    cversion := 0, aversion := 0, ephemeralOwner := 0, dataLength := 0,
    numChildren := 0, pzxid := 0 }

/-! ## Multi-op records (`Op`, `Op::SetData`, ...) -/

/-- `OpCode` tags carried in the `Op` base.  `zookeeper_multi.hh` is not
under `src/`; the numeric values are irrelevant to the claims and are
modelled as distinct constants. -/
def OpCode.Create : Int := 1

def OpCode.Remove : Int := 2

def OpCode.SetData : Int := 5

def OpCode.Check : Int := 13

/-- `Op::SetData` as a concrete record: the `Op` base fields
(`type_`, `path_`) plus the subclass fields (`data_`, `version_`). -/
structure OpSetData where
  type_ : Int
  path_ : String
  data_ : String
  version_ : Int
deriving DecidableEq, Repr

/-- The constructor `Op::SetData::SetData(path, data, version)`.  Its
initializer list is `Op((int32_t) OpCode::SetData, path), version_(version)`:
the `data` argument is never stored, so the `std::string data_` member is
left default-initialized (the empty string). -/
def OpSetData.make (path : String) (data : String) (version : Int) : OpSetData :=
  { type_ := OpCode.SetData, path_ := path, data_ := "", version_ := version }

/-- `Op::SetData::getData()` returns the `data_` member. -/
def OpSetData.getData (op : OpSetData) : String := op.data_

/-- `Op::getPath()` returns the `path_` member. -/
def OpSetData.getPath (op : OpSetData) : String := op.path_

/-- `Op::SetData::getVersion()` returns the `version_` member. -/
def OpSetData.getVersion (op : OpSetData) : Int := op.version_

/-- `Op::getType()` returns the `type_` member. -/
def OpSetData.getType (op : OpSetData) : Int := op.type_

/-! ## Reference counter (`mt_adaptor.c`) -/

/-- Wrap an integer into the two's-complement range of `int32_t`. -/
def wrap32 (n : Int) : Int := (n + 2 ^ 31) % 2 ^ 32 - 2 ^ 31

/-- `fetch_and_add(operand, incr)`: the `lock xaddl` primitive.  It returns
the old value of the memory cell and leaves `old + incr` (32-bit wrap) in
memory.  Modelled as (old value, new memory contents). -/
def fetch_and_add (operand : Int) (incr : Int) : Int × Int :=
  (operand, wrap32 (operand + incr))

/-- `inc_ref_counter(zh, i)`: clamps `i` to its sign
(`incr = (i<0 ? -1 : (i>0 ? 1 : 0))`), performs the atomic post-increment
`v = fetch_and_add(&zh->ref_counter, incr)`, then returns `v + incr` to
simulate pre-increment.  Modelled as (returned value, new counter value),
with 32-bit wrapping on the addition. -/
def inc_ref_counter (counter : Int) (i : Int) : Int × Int :=
  let incr : Int := if i < 0 then -1 else if i > 0 then 1 else 0
  let r := fetch_and_add counter incr
  (wrap32 (r.1 + incr), r.2)

/-! ## `ZooKeeperImpl` lifecycle (`init` / `close` / destructor) -/

/-- Connection-state codes for the handle.  The `State` enum declaration
lives in `ZooKeeperImpl.h`, which is not under `src/`; the four recognized
enumerators are modelled as distinct integer constants (values taken from
the standard client constants; only distinctness matters to the claims). -/
def State.Expired : Int := -112

/-- See `State.Expired`. -/
def State.SessionAuthFailed : Int := -113

/-- See `State.Expired`. -/
def State.Connecting : Int := 1

/-- See `State.Expired`. -/
def State.Connected : Int := 3

/-- The fields of `ZooKeeperImpl` relevant to the lifecycle claims:
`handle_` (a `zhandle_t*`, NULL modelled as `none`), `inited_`, `state_`. -/
structure ZooKeeperImpl where
  handle_ : Option Nat
  inited_ : Bool
  state_ : Int
deriving DecidableEq, Repr

/-- The constructor `ZooKeeperImpl() : handle_(NULL), inited_(false),
state_(Expired)`. -/
def ZooKeeperImpl.new : ZooKeeperImpl :=
  { handle_ := none, inited_ := false, state_ := State.Expired }

/-- `ZooKeeperImpl::init`: stores the engine handle returned by
`zookeeper_init` (here a parameter, `none` modelling a NULL return); on NULL
returns `Error` without setting `inited_`; otherwise sets `inited_` and
returns `Ok`. -/
def ZooKeeperImpl.init (z : ZooKeeperImpl) (engineHandle : Option Nat) :
    ZooKeeperImpl × ReturnCode :=
  let z1 : ZooKeeperImpl := { z with handle_ := engineHandle }
  match engineHandle with
  | none => (z1, ReturnCode.Error)
  | some _ => ({ z1 with inited_ := true }, ReturnCode.Ok)

/-- `ZooKeeperImpl::close()`: if `inited_` is false, returns `Error` and
changes nothing; otherwise clears `inited_`, calls `zookeeper_close(handle_)`
once, nulls `handle_` and returns `Ok`.  Result: (new object state, return
code, number of `zookeeper_close` invocations made by this call). -/
def ZooKeeperImpl.close (z : ZooKeeperImpl) : ZooKeeperImpl × ReturnCode × Nat :=
  if z.inited_ = false then (z, ReturnCode.Error, 0)
  else ({ z with inited_ := false, handle_ := none }, ReturnCode.Ok, 1)

/-- The destructor `~ZooKeeperImpl()` just runs `close()`; result: (final
object state, number of `zookeeper_close` invocations). -/
def ZooKeeperImpl.destruct (z : ZooKeeperImpl) : ZooKeeperImpl × Nat :=
  (z.close.1, z.close.2.2)

/-! ## Completion routing adapters

Each adapter receives the engine result code `rc : Int`, the engine-owned
payload pointers (`Option` values; `none` is NULL) and the opaque context
pointer cast back to its context type.  The context's
`boost::shared_ptr<Callback>` is modelled by its presence
(`callback_.get() != NULL`).  An adapter run is modelled as a record of the
exact arguments handed to the user callback (or `none` if it was not
invoked) and the number of `delete context` operations.  A failed `assert`
(process abort, nothing after it executes) makes the whole result `none`. -/

/-- `CompletionContext`: a user callback (modelled by its presence) plus
the request path. -/
structure CompletionContext where
  callbackPresent : Bool
  path_ : String
deriving DecidableEq, Repr

/-- `AuthCompletionContext`: a user callback plus the auth scheme and
certificate captured at submission time. -/
structure AuthCompletionContext where
  callbackPresent : Bool
  scheme_ : String
  cert_ : String
deriving DecidableEq, Repr

/-- How a `Stat` argument reaches a user callback: `borrowed p` is a raw
engine-owned pointer passed straight through (`(struct Stat*)stat`, possibly
NULL); `owned s` is a value copied into adapter-owned storage before the
call (`memmove` into a local `Stat`, passed by value). -/
inductive StatArg where
  | borrowed : Option Stat → StatArg
  | owned : Stat → StatArg
deriving DecidableEq, Repr

/-- One ACL entry (`struct ACL`); the fields are opaque to these claims. -/
structure ACL where
  perms : Int
  scheme : String
  id : String
deriving DecidableEq, Repr

/-- How an ACL-vector argument reaches a user callback: `borrowed` is the
raw engine-owned `ACL_vector*` passed straight through. -/
inductive AclArg where
  | borrowed : Option (List ACL) → AclArg
  | owned : List ACL → AclArg
deriving DecidableEq, Repr

/-- Result of `stringCompletion`: arguments given to
`StringCallback::processResult(rc, path, result)`, and the delete count. -/
structure StringRun where
  callbackArgs : Option (Int × String × String)
  deletes : Nat
deriving DecidableEq, Repr

/-- Result of `voidCompletion` / `syncCompletion`: arguments given to
`VoidCallback::processResult(rc, path)`, and the delete count. -/
structure VoidRun where
  callbackArgs : Option (Int × String)
  deletes : Nat
deriving DecidableEq, Repr

/-- Result of `statCompletion`: arguments given to
`StatCallback::processResult(rc, path, stat)`, and the delete count. -/
structure StatRun where
  callbackArgs : Option (Int × String × StatArg)
  deletes : Nat
deriving DecidableEq, Repr

/-- Result of `dataCompletion`: arguments given to
`GetCallback::process(rc, path, result, statCopy)`, and the delete count. -/
structure DataRun where
  callbackArgs : Option (Int × String × String × StatArg)
  deletes : Nat
deriving DecidableEq, Repr

/-- Result of `childrenCompletion`: arguments given to
`ChildrenCallback::processResult(rc, path, children, stat)`, and the delete
count. -/
structure ChildrenRun where
  callbackArgs : Option (Int × String × List String × StatArg)
  deletes : Nat
deriving DecidableEq, Repr

/-- Result of `aclCompletion`: arguments given to
`AclCallback::processResult(rc, path, acl, stat)`, and the delete count. -/
structure AclRun where
  callbackArgs : Option (Int × String × AclArg × StatArg)
  deletes : Nat
deriving DecidableEq, Repr

/-- Result of `authCompletion`: arguments given to
`AuthCallback::processResult(rc, scheme, cert)`, and the delete count. -/
structure AuthRun where
  callbackArgs : Option (Int × String × String)
  deletes : Nat
deriving DecidableEq, Repr

/-- `ZooKeeperImpl::stringCompletion(rc, value, data)`: on `rc == Ok` it
asserts `value != NULL` and copies it into an owned `std::string result`;
otherwise `result` stays empty.  Invokes the callback if present, then
deletes the context. -/
def stringCompletion (rc : Int) (value : Option String) (ctx : CompletionContext) :
    Option StringRun :=
  if rc = rcOk ∧ value = none then none
  else
    let result : String := if rc = rcOk then value.getD "" else ""
    some { callbackArgs :=
             if ctx.callbackPresent then some (rc, ctx.path_, result) else none,
           deletes := 1 }

/-- `ZooKeeperImpl::voidCompletion(rc, data)`: invokes the callback if
present with `(rc, path)`, then deletes the context. -/
def voidCompletion (rc : Int) (ctx : CompletionContext) : VoidRun :=
  { callbackArgs := if ctx.callbackPresent then some (rc, ctx.path_) else none,
    deletes := 1 }

/-- `ZooKeeperImpl::statCompletion(rc, stat, data)`: invokes the callback if
present with `(rc, path, (struct Stat*)stat)` — the engine-owned pointer is
passed straight through for every result code — then deletes the context. -/
def statCompletion (rc : Int) (stat : Option Stat) (ctx : CompletionContext) : StatRun :=
  { callbackArgs :=
      if ctx.callbackPresent then some (rc, ctx.path_, StatArg.borrowed stat) else none,
    deletes := 1 }

/-- `ZooKeeperImpl::dataCompletion(rc, value, value_len, stat, data)`: on
`rc == Ok` it asserts `value`, `value_len >= 0` and `stat`, copies the byte
buffer into an owned `std::string result` and `memmove`s the stat into a
local `Stat statCopy`; otherwise both stay default.  It then runs
`assert(callback)` — a NULL callback aborts — and invokes
`callback->process(rc, path, result, statCopy)` unconditionally before
deleting the context. -/
def dataCompletion (rc : Int) (value : Option String) (stat : Option Stat)
    (ctx : CompletionContext) : Option DataRun :=
  if rc = rcOk ∧ (value = none ∨ stat = none) then none
  else
    let result : String := if rc = rcOk then value.getD "" else ""
    let statCopy : Stat := if rc = rcOk then stat.getD statZero else statZero
    if ctx.callbackPresent then
      some { callbackArgs := some (rc, ctx.path_, result, StatArg.owned statCopy),
             deletes := 1 }
    else none

/-- `ZooKeeperImpl::childrenCompletion(rc, strings, stat, data)`: on
`rc == Ok` it copies `strings->data[0..count)` into an owned vector
(dereferencing `strings`, which the engine must supply on success);
invokes the callback if present with
`(rc, path, children, (struct Stat*)stat)` — the stat pointer is passed
straight through — then deletes the context. -/
def childrenCompletion (rc : Int) (strings : Option (List String)) (stat : Option Stat)
    (ctx : CompletionContext) : Option ChildrenRun :=
  if rc = rcOk ∧ strings = none then none
  else
    let children : List String := if rc = rcOk then strings.getD [] else []
    some { callbackArgs :=
             if ctx.callbackPresent then
               some (rc, ctx.path_, children, StatArg.borrowed stat)
             else none,
           deletes := 1 }

/-- `ZooKeeperImpl::aclCompletion(rc, acl, stat, data)`: invokes the
callback if present with `(rc, path, acl, (struct Stat*)stat)` — both
engine-owned pointers are passed straight through for every result code —
then deletes the context. -/
def aclCompletion (rc : Int) (acl : Option (List ACL)) (stat : Option Stat)
    (ctx : CompletionContext) : AclRun :=
  { callbackArgs :=
      if ctx.callbackPresent then
        some (rc, ctx.path_, AclArg.borrowed acl, StatArg.borrowed stat)
      else none,
    deletes := 1 }

/-- `ZooKeeperImpl::authCompletion(rc, data)`: runs `assert(callback)` — a
NULL callback aborts — and invokes
`callback->processResult(rc, scheme, cert)` unconditionally before deleting
the context. -/
def authCompletion (rc : Int) (ctx : AuthCompletionContext) : Option AuthRun :=
  if ctx.callbackPresent then
    some { callbackArgs := some (rc, ctx.scheme_, ctx.cert_), deletes := 1 }
  else none

/-- `ZooKeeperImpl::syncCompletion(rc, value, data)`: ignores `value`,
invokes the callback if present with `(rc, path)`, then deletes the
context. -/
def syncCompletion (rc : Int) (value : Option String) (ctx : CompletionContext) : VoidRun :=
  { callbackArgs := if ctx.callbackPresent then some (rc, ctx.path_) else none,
    deletes := 1 }

/-! ## Watch dispatch (`ZooKeeperImpl::watchCallback`) -/

/-- The `Session` event-type code (`Event` enum; declaration in
`ZooKeeperImpl.h`, not under `src/`; the value is irrelevant to the claims —
only that it is one fixed code — and follows the standard client
`ZOO_SESSION_EVENT`). -/
def Event.Session : Int := -1

/-- The test performed by the `switch((State) state)` in `watchCallback`:
the delivered integer matches one of the four recognized `State`
enumerators. -/
def validState (s : Int) : Bool :=
  s = State.Expired ∨ s = State.SessionAuthFailed ∨
    s = State.Connecting ∨ s = State.Connected

/-- `WatchContext`: a polymorphic watch object (modelled by its presence,
`watch_.get() != NULL`) and the deletion policy flag.  The `zk_` back
pointer's state is threaded explicitly through `watchCallback`. -/
structure WatchContext where
  watchPresent : Bool
  deleteAfterCallback_ : Bool
deriving DecidableEq, Repr

/-- Result of one `watchCallback` dispatch: the handle's `state_` after the
dispatch, the arguments given to `watch->process(type, state, path)`
together with the handle state observable at the moment of that invocation
(`none` when no watch object was present), and whether the context was
deleted. -/
structure WatchRun where
  finalState : Int
  processArgs : Option (Int × Int × String × Int)
  contextDeleted : Bool
deriving DecidableEq, Repr

/-- `ZooKeeperImpl::watchCallback(zh, type, state, path, watcherCtx)`.
It first runs `assert(watcherCtx)` (a NULL context aborts).  For a
`Session` event it switches on `(State) state`: a recognized value is
stored into the handle via `setState` (before any watch invocation), any
other value reaches `assert(!"Got unknown state")` and aborts without
touching the handle state.  Then, if a watch object is present, it invokes
`watch->process((Event)type, (State)state, path)`; finally it deletes the
context iff `deleteAfterCallback_`.  `handleState` is the handle's `state_`
at entry; an abort is modelled as `none`. -/
def watchCallback (etype : Int) (state : Int) (path : String)
    (watcherCtx : Option WatchContext) (handleState : Int) : Option WatchRun :=
  match watcherCtx with
  | none => none
  | some ctx =>
    if etype = Event.Session then
      if validState state then
        some { finalState := state,
               processArgs :=
                 if ctx.watchPresent then some (etype, state, path, state) else none,
               contextDeleted := ctx.deleteAfterCallback_ }
      else none
    else
      some { finalState := handleState,
             processArgs :=
               if ctx.watchPresent then some (etype, state, path, handleState) else none,
             contextDeleted := ctx.deleteAfterCallback_ }

/-! ## Watcher arguments passed to the engine at submission time -/

/-- What a submission function hands the engine for watch delivery: whether
a non-NULL `watcher_fn` is passed, and the `WatchContext*` registered with
it (`none` is NULL). -/
structure SubmitWatchArgs where
  watcherFnPassed : Bool
  watcherCtx : Option WatchContext
deriving DecidableEq, Repr

/-- `ZooKeeperImpl::exists` (async): `watcher` and `watchContext` start
NULL and are both set only when `watch.get()` is non-NULL
(`new WatchContext(this, watch, true)`). -/
def existsWatchArgs (watchPresent : Bool) : SubmitWatchArgs :=
  if watchPresent then
    { watcherFnPassed := true,
      watcherCtx := some { watchPresent := true, deleteAfterCallback_ := true } }
  else { watcherFnPassed := false, watcherCtx := none }

/-- `ZooKeeperImpl::get`: the `WatchContext` is allocated only when
`watch.get()` is non-NULL, but the call to `zoo_awget` passes
`&watchCallback` literally — unconditionally — with the possibly-NULL
context. -/
def getWatchArgs (watchPresent : Bool) : SubmitWatchArgs :=
  { watcherFnPassed := true,
    watcherCtx :=
      if watchPresent then
        some { watchPresent := true, deleteAfterCallback_ := true }
      else none }

/-- `ZooKeeperImpl::getChildren`: same guarded pattern as `exists` —
`watcher` is passed to `zoo_awget_children2` only when a watch object was
supplied. -/
def getChildrenWatchArgs (watchPresent : Bool) : SubmitWatchArgs :=
  if watchPresent then
    { watcherFnPassed := true,
      watcherCtx := some { watchPresent := true, deleteAfterCallback_ := true } }
  else { watcherFnPassed := false, watcherCtx := none }

/-! ## Synchronous adapter (`ExistsCallback`, blocking `exists`) -/

/-- The fields of `ExistsCallback`: captured result code and path, the
caller's `struct Stat*` slot (`none` models a NULL pointer; `some s` models
a non-NULL pointer whose pointee currently holds `s`), and the completed
flag.  (`rc_` and `path_` are uninitialized until `processResult` runs; the
initial values below are arbitrary and never observed by the claims.) -/
structure ExistsCallback where
  rc_ : Int
  path_ : String
  stat_ : Option Stat
  completed_ : Bool
deriving DecidableEq, Repr

/-- The constructor `ExistsCallback(struct Stat* stat) : stat_(stat),
completed_(false)`. -/
def ExistsCallback.new (stat : Option Stat) : ExistsCallback :=
  { rc_ := 0, path_ := "", stat_ := stat, completed_ := false }

/-- `ExistsCallback::processResult(rc, path, stat)`: on `rc == Ok` it
dereferences `stat` (logging its fields, and `memmove`ing it into the
caller's slot when `stat_` is non-NULL) — the engine must supply a non-NULL
stat on success, a NULL one is modelled as an abort (`none`).  It then
records `rc` and `path`, sets the completed flag under the mutex, and
notifies the condition variable. -/
def ExistsCallback.processResult (cb : ExistsCallback) (rc : Int) (path : String)
    (stat : Option Stat) : Option ExistsCallback :=
  if rc = rcOk then
    match stat with
    | none => none
    | some s =>
        some { cb with
                 stat_ := if cb.stat_.isSome then some s else none,
                 rc_ := rc, path_ := path, completed_ := true }
  else some { cb with rc_ := rc, path_ := path, completed_ := true }

/-- `ExistsCallback::waitForCompleted` returns exactly when the completed
flag has been set. -/
def ExistsCallback.waitReturns (cb : ExistsCallback) : Prop := cb.completed_ = true

/-- The blocking `ZooKeeperImpl::exists(path, watch, stat*)` after the
async submission succeeded: it allocates `ExistsCallback(callerStat)`,
the engine later delivers `statCompletion`, which forwards
`(rc, path, stat)` to `processResult`; `waitForCompleted` then returns and
the call returns `callback->rc_`.  Result: the callback state after
delivery paired with the value the blocking call returns. -/
def existsBlocking (callerStat : Option Stat) (rc : Int) (path : String)
    (stat : Option Stat) : Option (ExistsCallback × Int) :=
  ((ExistsCallback.new callerStat).processResult rc path stat).map
    (fun cb => (cb, cb.rc_))

/-! ## Thread startup barrier (`mt_adaptor.c`) -/

/-- Shared barrier state: the `adaptor->threadsToWait` counter plus the
control points of the three actors.  `ioSignaled` / `compSignaled` record
that the worker has executed the decrement-and-notify in
`notify_thread_ready`; `ioPassed` / `compPassed` that it has exited the
wait loop there; `mainReturned` that `wait_for_others` (called by
`start_threads`) has returned. -/
structure BarrierState where
  threadsToWait : Int
  ioSignaled : Bool
  compSignaled : Bool
  ioPassed : Bool
  compPassed : Bool
  mainReturned : Bool
deriving DecidableEq, Repr

/-- The state set up by `start_threads` just before launching the two
workers: `adaptor->threadsToWait = 2`, no progress yet. -/
def initBarrier : BarrierState :=
  { threadsToWait := 2, ioSignaled := false, compSignaled := false,
    ioPassed := false, compPassed := false, mainReturned := false }

/-- One mutex-protected step of the barrier protocol.  Each worker thread
runs `notify_thread_ready` exactly once: `threadsToWait--` and
`cond.notify_all()` under the lock (the signal steps, guarded by the flag
not yet being set), then `while(threadsToWait > 0) wait` (the pass steps,
enabled only when the counter has reached zero or less).  `wait_for_others`
in the initiating thread returns only when its identical wait loop sees
`threadsToWait <= 0`. -/
inductive BarrierStep : BarrierState → BarrierState → Prop where
  | ioSignal (s : BarrierState) (h : s.ioSignaled = false) :
      BarrierStep s { s with threadsToWait := s.threadsToWait - 1, ioSignaled := true }
  | compSignal (s : BarrierState) (h : s.compSignaled = false) :
      BarrierStep s { s with threadsToWait := s.threadsToWait - 1, compSignaled := true }
  | ioPass (s : BarrierState) (h1 : s.ioSignaled = true) (h2 : s.threadsToWait ≤ 0) :
      BarrierStep s { s with ioPassed := true }
  | compPass (s : BarrierState) (h1 : s.compSignaled = true) (h2 : s.threadsToWait ≤ 0) :
      BarrierStep s { s with compPassed := true }
  | mainReturn (s : BarrierState) (h : s.threadsToWait ≤ 0) :
      BarrierStep s { s with mainReturned := true }

/-- The barrier states reachable from `initBarrier` under any interleaving
of the three actors. -/
inductive BarrierReachable : BarrierState → Prop where
  | init : BarrierReachable initBarrier
  | step {s t : BarrierState} :
      BarrierReachable s → BarrierStep s t → BarrierReachable t

/-! ## Completion queue FIFO (`do_completion`) -/

/-- One queued completion record: correlation id, completion kind tag and
result code (payload irrelevant to the ordering claim). -/
structure CompletionRecord where
  xid : Int
  kind : Int
  rc : Int
deriving DecidableEq, Repr

/-- Modelled from the spec: the completion queue and its consumption.  The
intrusive list `zh->completions_to_process` and `process_completions` live
in `zookeeper.c`, which is not under `src/`; per the spec the I/O thread
appends records at the tail and the Completion thread (the
`do_completion` loop in `mt_adaptor.c`) dequeues from the head and invokes
each callback, never reordering, coalescing or dropping records.
`toProduce` is the sequence of completions the I/O thread will enqueue, in
production order; `queue` is the pending queue head-first; `delivered` is
the sequence of callback invocations already made, in order. -/
structure QueueState where
  toProduce : List CompletionRecord
  queue : List CompletionRecord
  delivered : List CompletionRecord
deriving DecidableEq, Repr

/-- Modelled from the spec: one step of the producer/consumer pair —
either the I/O thread enqueues its next record at the tail of the queue,
or the Completion thread dequeues the head record and invokes its
callback. -/
inductive QueueStep : QueueState → QueueState → Prop where
  | enqueue (r : CompletionRecord) (rest : List CompletionRecord)
      (q d : List CompletionRecord) :
      QueueStep ⟨r :: rest, q, d⟩ ⟨rest, q ++ [r], d⟩
  | deliver (p : List CompletionRecord) (r : CompletionRecord)
      (rest d : List CompletionRecord) :
      QueueStep ⟨p, r :: rest, d⟩ ⟨p, rest, d ++ [r]⟩

/-- Queue states reachable from an initial production plan `p0` with empty
queue and nothing delivered. -/
inductive QueueReachable (p0 : List CompletionRecord) : QueueState → Prop where
  | init : QueueReachable p0 ⟨p0, [], []⟩
  | step {s t : QueueState} :
      QueueReachable p0 s → QueueStep s t → QueueReachable p0 t

/-! ## Theorems -/

/-- C8: for every path `p`, data string `d` and version `v`, the multi-op
record `Op::SetData(p, d, v)` never stores `d` — its `data_` member is left
default-initialized, so `getData()` returns the empty string regardless of
`d`, while `getPath()` returns `p` and `getVersion()` returns `v`. -/
theorem C8_setData_drops_data (p d : String) (v : Int) :
    (OpSetData.make p d v).getData = "" ∧
    (OpSetData.make p d v).getPath = p ∧
    (OpSetData.make p d v).getVersion = v :=
  ⟨rfl, rfl, rfl⟩

/-- C10: `ZooKeeperImpl::close()` invokes `zookeeper_close` at most once per
successful init: on an inited object the first `close` returns `Ok`, makes
exactly one `zookeeper_close` call, clears `inited_` and nulls `handle_`;
a second `close` (and the destructor run after an explicit close) returns
`Error`, makes no engine call and leaves the object unchanged; `close` on a
never-initialized instance likewise returns `Error` with no engine call. -/
theorem C10_close_at_most_once (z : ZooKeeperImpl) (h : z.inited_ = true) :
    z.close.2.1 = ReturnCode.Ok ∧
    z.close.2.2 = 1 ∧
    z.close.1.inited_ = false ∧
    z.close.1.handle_ = none ∧
    z.close.1.close = (z.close.1, ReturnCode.Error, 0) ∧
    z.close.1.destruct = (z.close.1, 0) ∧
    ZooKeeperImpl.new.close = (ZooKeeperImpl.new, ReturnCode.Error, 0) := by
  simp [ZooKeeperImpl.close, ZooKeeperImpl.destruct, ZooKeeperImpl.new, h]

/-- Witness for C10 at a concretely initialized object. -/
theorem C10_close_at_most_once_witness :
    (ZooKeeperImpl.new.init (some 1)).1.close.2.1 = ReturnCode.Ok ∧
    (ZooKeeperImpl.new.init (some 1)).1.close.2.2 = 1 ∧
    (ZooKeeperImpl.new.init (some 1)).1.close.1.inited_ = false ∧
    (ZooKeeperImpl.new.init (some 1)).1.close.1.handle_ = none ∧
    (ZooKeeperImpl.new.init (some 1)).1.close.1.close =
      ((ZooKeeperImpl.new.init (some 1)).1.close.1, ReturnCode.Error, 0) ∧
    (ZooKeeperImpl.new.init (some 1)).1.close.1.destruct =
      ((ZooKeeperImpl.new.init (some 1)).1.close.1, 0) ∧
    ZooKeeperImpl.new.close = (ZooKeeperImpl.new, ReturnCode.Error, 0) :=
  C10_close_at_most_once (ZooKeeperImpl.new.init (some 1)).1 rfl

/-- C6 counterexample: `inc_ref_counter` does not add its second argument —
for `counter = 0`, `i = 2` it adds only `1` (the clamped sign of `i`),
returning `1` where add-and-fetch semantics would return `0 + 2 = 2`. -/
theorem C6_counterexample :
    inc_ref_counter 0 2 = (1, 1) ∧ (1 : Int) ≠ 0 + 2 := by decide

/-- C6 amended: `inc_ref_counter(zh, i)` clamps the delta to the sign of
`i` — it atomically adds `sign i ∈ {-1, 0, 1}` to the handle's 32-bit
reference counter and returns the new (post-addition) counter value; the
claimed add-and-fetch semantics for `i` itself therefore holds exactly when
`i ∈ {-1, 0, 1}`. -/
theorem C6_inc_ref_clamped (c i : Int) :
    inc_ref_counter c i = (wrap32 (c + Int.sign i), wrap32 (c + Int.sign i)) := by
  have hs : (if i < 0 then (-1 : Int) else if i > 0 then 1 else 0) = Int.sign i := by
    rcases lt_trichotomy i 0 with h | h | h
    · rw [if_pos h]
      exact (Int.sign_eq_neg_one_iff_neg.mpr h).symm
    · subst h; norm_num
    · rw [if_neg (by omega), if_pos h]
      exact (Int.sign_eq_one_iff_pos.mpr h).symm
  simp only [inc_ref_counter, fetch_and_add, hs]

/-- C1 counterexample: with a well-formed success payload but an absent
callback, `dataCompletion` and `authCompletion` hit `assert(callback)` and
abort (modelled as `none`): the invocation step is not a no-op and the
`CompletionContext` is not deleted at all — refuting the claim that every
adapter tolerates a null callback and deletes the context exactly once. -/
theorem C1_counterexample :
    dataCompletion 0 (some "") (some statZero) ⟨false, "/a"⟩ = none ∧
    authCompletion 0 ⟨false, "digest", "user:pass"⟩ = none := by decide

/-- C1 amended: on every non-aborting run each adapter deletes its context
exactly once and invokes the callback exactly when one is present;
`stringCompletion`, `voidCompletion`, `statCompletion`,
`childrenCompletion`, `aclCompletion` and `syncCompletion` tolerate an
absent callback as a no-op, while `dataCompletion` and `authCompletion`
run iff their callback is present and abort on an absent one (deleting
nothing).  Engine contract assumed: on a success code the payload pointers
are non-NULL. -/
theorem C1_adapters_invoke_and_delete (rc : Int)
    (value dvalue svalue : Option String) (stat dstat cstat astat : Option Stat)
    (strings : Option (List String)) (acl : Option (List ACL))
    (ctx : CompletionContext) (actx : AuthCompletionContext)
    (hv : rc = rcOk → value.isSome = true)
    (hdv : rc = rcOk → dvalue.isSome = true)
    (hds : rc = rcOk → dstat.isSome = true)
    (hstr : rc = rcOk → strings.isSome = true) :
    ((stringCompletion rc value ctx).map StringRun.deletes = some 1 ∧
      (stringCompletion rc value ctx).map (fun r => r.callbackArgs.isSome) =
        some ctx.callbackPresent) ∧
    ((voidCompletion rc ctx).deletes = 1 ∧
      (voidCompletion rc ctx).callbackArgs.isSome = ctx.callbackPresent) ∧
    ((statCompletion rc stat ctx).deletes = 1 ∧
      (statCompletion rc stat ctx).callbackArgs.isSome = ctx.callbackPresent) ∧
    ((childrenCompletion rc strings cstat ctx).map ChildrenRun.deletes = some 1 ∧
      (childrenCompletion rc strings cstat ctx).map (fun r => r.callbackArgs.isSome) =
        some ctx.callbackPresent) ∧
    ((aclCompletion rc acl astat ctx).deletes = 1 ∧
      (aclCompletion rc acl astat ctx).callbackArgs.isSome = ctx.callbackPresent) ∧
    ((syncCompletion rc svalue ctx).deletes = 1 ∧
      (syncCompletion rc svalue ctx).callbackArgs.isSome = ctx.callbackPresent) ∧
    ((dataCompletion rc dvalue dstat ctx).isSome = ctx.callbackPresent ∧
      (dataCompletion rc dvalue dstat ctx).map DataRun.deletes =
        (if ctx.callbackPresent then some 1 else none) ∧
      (dataCompletion rc dvalue dstat ctx).map (fun r => r.callbackArgs.isSome) =
        (if ctx.callbackPresent then some true else none)) ∧
    ((authCompletion rc actx).isSome = actx.callbackPresent ∧
      (authCompletion rc actx).map AuthRun.deletes =
        (if actx.callbackPresent then some 1 else none) ∧
      (authCompletion rc actx).map (fun r => r.callbackArgs.isSome) =
        (if actx.callbackPresent then some true else none)) := by
  have hvne : ¬(rc = rcOk ∧ value = none) := by
    rintro ⟨h1, h2⟩; have := hv h1; simp [h2] at this
  have hdne : ¬(rc = rcOk ∧ (dvalue = none ∨ dstat = none)) := by
    rintro ⟨h1, h2⟩
    rcases h2 with h2 | h2
    · have := hdv h1; simp [h2] at this
    · have := hds h1; simp [h2] at this
  have hsne : ¬(rc = rcOk ∧ strings = none) := by
    rintro ⟨h1, h2⟩; have := hstr h1; simp [h2] at this
  refine ⟨?_, ?_, ?_, ?_, ?_, ?_, ?_, ?_⟩
  · rw [stringCompletion, if_neg hvne]
    cases hc : ctx.callbackPresent <;> simp [hc]
  · cases hc : ctx.callbackPresent <;> simp [voidCompletion, hc]
  · cases hc : ctx.callbackPresent <;> simp [statCompletion, hc]
  · rw [childrenCompletion, if_neg hsne]
    cases hc : ctx.callbackPresent <;> simp [hc]
  · cases hc : ctx.callbackPresent <;> simp [aclCompletion, hc]
  · cases hc : ctx.callbackPresent <;> simp [syncCompletion, hc]
  · rw [dataCompletion, if_neg hdne]
    cases hc : ctx.callbackPresent <;> simp [hc]
  · cases hc : actx.callbackPresent <;> simp [authCompletion, hc]

/-- Witness for the amended C1 at concrete inputs (success code, payloads
supplied, callbacks present). -/
theorem C1_adapters_invoke_and_delete_witness :
    ((stringCompletion 0 (some "v") ⟨true, "/a"⟩).map StringRun.deletes = some 1 ∧
      (stringCompletion 0 (some "v") ⟨true, "/a"⟩).map (fun r => r.callbackArgs.isSome) =
        some (CompletionContext.mk true "/a").callbackPresent) ∧
    ((voidCompletion 0 ⟨true, "/a"⟩).deletes = 1 ∧
      (voidCompletion 0 ⟨true, "/a"⟩).callbackArgs.isSome =
        (CompletionContext.mk true "/a").callbackPresent) ∧
    ((statCompletion 0 (some statZero) ⟨true, "/a"⟩).deletes = 1 ∧
      (statCompletion 0 (some statZero) ⟨true, "/a"⟩).callbackArgs.isSome =
        (CompletionContext.mk true "/a").callbackPresent) ∧
    ((childrenCompletion 0 (some ["c"]) (some statZero) ⟨true, "/a"⟩).map
        ChildrenRun.deletes = some 1 ∧
      (childrenCompletion 0 (some ["c"]) (some statZero) ⟨true, "/a"⟩).map
          (fun r => r.callbackArgs.isSome) =
        some (CompletionContext.mk true "/a").callbackPresent) ∧
    ((aclCompletion 0 (some []) (some statZero) ⟨true, "/a"⟩).deletes = 1 ∧
      (aclCompletion 0 (some []) (some statZero) ⟨true, "/a"⟩).callbackArgs.isSome =
        (CompletionContext.mk true "/a").callbackPresent) ∧
    ((syncCompletion 0 (some "v") ⟨true, "/a"⟩).deletes = 1 ∧
      (syncCompletion 0 (some "v") ⟨true, "/a"⟩).callbackArgs.isSome =
        (CompletionContext.mk true "/a").callbackPresent) ∧
    ((dataCompletion 0 (some "v") (some statZero) ⟨true, "/a"⟩).isSome =
        (CompletionContext.mk true "/a").callbackPresent ∧
      (dataCompletion 0 (some "v") (some statZero) ⟨true, "/a"⟩).map DataRun.deletes =
        (if (CompletionContext.mk true "/a").callbackPresent then some 1 else none) ∧
      (dataCompletion 0 (some "v") (some statZero) ⟨true, "/a"⟩).map
          (fun r => r.callbackArgs.isSome) =
        (if (CompletionContext.mk true "/a").callbackPresent then some true else none)) ∧
    ((authCompletion 0 ⟨true, "digest", "user:pass"⟩).isSome =
        (AuthCompletionContext.mk true "digest" "user:pass").callbackPresent ∧
      (authCompletion 0 ⟨true, "digest", "user:pass"⟩).map AuthRun.deletes =
        (if (AuthCompletionContext.mk true "digest" "user:pass").callbackPresent
         then some 1 else none) ∧
      (authCompletion 0 ⟨true, "digest", "user:pass"⟩).map
          (fun r => r.callbackArgs.isSome) =
        (if (AuthCompletionContext.mk true "digest" "user:pass").callbackPresent
         then some true else none)) :=
  C1_adapters_invoke_and_delete 0 (some "v") (some "v") (some "v")
    (some statZero) (some statZero) (some statZero) (some statZero)
    (some ["c"]) (some []) ⟨true, "/a"⟩ ⟨true, "digest", "user:pass"⟩
    (fun _ => rfl) (fun _ => rfl) (fun _ => rfl) (fun _ => rfl)

/-- C2 counterexample: `statCompletion` hands the raw engine-owned
`struct Stat*` straight to the user callback — on success no copy into
owned storage is made (the argument is `borrowed`, not the `owned` copy the
claim requires), and on a failure code the payload is passed through rather
than suppressed. -/
theorem C2_counterexample :
    (statCompletion 0 (some statZero) ⟨true, "/a"⟩).callbackArgs =
      some (0, "/a", StatArg.borrowed (some statZero)) ∧
    (statCompletion 0 (some statZero) ⟨true, "/a"⟩).callbackArgs ≠
      some (0, "/a", StatArg.owned statZero) ∧
    (statCompletion (-4) (some statZero) ⟨true, "/a"⟩).callbackArgs =
      some (-4, "/a", StatArg.borrowed (some statZero)) := by decide

/-- C2 amended: the copy-out discipline holds for `stringCompletion`,
`dataCompletion`, `childrenCompletion`'s child list, `voidCompletion`,
`syncCompletion` and `authCompletion` — on non-success codes their payload
arguments are fixed defaults independent of the engine buffers, and on
success they are copies in adapter-owned storage; but `statCompletion` and
`aclCompletion` pass the engine-owned `Stat*` (and `ACL_vector*`) pointers
straight through to the callback for every result code, and
`childrenCompletion` does the same for its `Stat*` argument.  Engine
contract assumed: on a success code the payload pointers are non-NULL. -/
theorem C2_payload_copy_discipline (rc : Int)
    (value dvalue svalue : Option String) (stat dstat cstat : Option Stat)
    (strings : Option (List String)) (acl : Option (List ACL))
    (ctx : CompletionContext) (actx : AuthCompletionContext)
    (hv : rc = rcOk → value.isSome = true)
    (hdv : rc = rcOk → dvalue.isSome = true)
    (hds : rc = rcOk → dstat.isSome = true)
    (hstr : rc = rcOk → strings.isSome = true) :
    stringCompletion rc value ctx =
      some { callbackArgs :=
               if ctx.callbackPresent then
                 some (rc, ctx.path_, if rc = rcOk then value.getD "" else "")
               else none,
             deletes := 1 } ∧
    voidCompletion rc ctx =
      { callbackArgs := if ctx.callbackPresent then some (rc, ctx.path_) else none,
        deletes := 1 } ∧
    statCompletion rc stat ctx =
      { callbackArgs :=
          if ctx.callbackPresent then some (rc, ctx.path_, StatArg.borrowed stat)
          else none,
        deletes := 1 } ∧
    dataCompletion rc dvalue dstat ctx =
      (if ctx.callbackPresent then
        some { callbackArgs :=
                 some (rc, ctx.path_, (if rc = rcOk then dvalue.getD "" else ""),
                   StatArg.owned (if rc = rcOk then dstat.getD statZero else statZero)),
               deletes := 1 }
      else none) ∧
    childrenCompletion rc strings cstat ctx =
      some { callbackArgs :=
               if ctx.callbackPresent then
                 some (rc, ctx.path_, (if rc = rcOk then strings.getD [] else []),
                   StatArg.borrowed cstat)
               else none,
             deletes := 1 } ∧
    aclCompletion rc acl cstat ctx =
      { callbackArgs :=
          if ctx.callbackPresent then
            some (rc, ctx.path_, AclArg.borrowed acl, StatArg.borrowed cstat)
          else none,
        deletes := 1 } ∧
    authCompletion rc actx =
      (if actx.callbackPresent then
        some { callbackArgs := some (rc, actx.scheme_, actx.cert_), deletes := 1 }
      else none) ∧
    syncCompletion rc svalue ctx =
      { callbackArgs := if ctx.callbackPresent then some (rc, ctx.path_) else none,
        deletes := 1 } := by
  have hvne : ¬(rc = rcOk ∧ value = none) := by
    rintro ⟨h1, h2⟩; have := hv h1; simp [h2] at this
  have hdne : ¬(rc = rcOk ∧ (dvalue = none ∨ dstat = none)) := by
    rintro ⟨h1, h2⟩
    rcases h2 with h2 | h2
    · have := hdv h1; simp [h2] at this
    · have := hds h1; simp [h2] at this
  have hsne : ¬(rc = rcOk ∧ strings = none) := by
    rintro ⟨h1, h2⟩; have := hstr h1; simp [h2] at this
  refine ⟨?_, rfl, rfl, ?_, ?_, rfl, ?_, rfl⟩
  · rw [stringCompletion, if_neg hvne]
  · rw [dataCompletion, if_neg hdne]
  · rw [childrenCompletion, if_neg hsne]
  · cases hc : actx.callbackPresent <;> simp [authCompletion, hc]

/-- Witness for the amended C2 at concrete inputs (a non-success code with
payload pointers still supplied, callbacks present). -/
theorem C2_payload_copy_discipline_witness :
    stringCompletion (-4) (some "v") ⟨true, "/a"⟩ =
      some { callbackArgs :=
               if (CompletionContext.mk true "/a").callbackPresent then
                 some (-4, (CompletionContext.mk true "/a").path_,
                   if (-4 : Int) = rcOk then (some "v").getD "" else "")
               else none,
             deletes := 1 } ∧
    voidCompletion (-4) ⟨true, "/a"⟩ =
      { callbackArgs :=
          if (CompletionContext.mk true "/a").callbackPresent then
            some (-4, (CompletionContext.mk true "/a").path_)
          else none,
        deletes := 1 } ∧
    statCompletion (-4) (some statZero) ⟨true, "/a"⟩ =
      { callbackArgs :=
          if (CompletionContext.mk true "/a").callbackPresent then
            some (-4, (CompletionContext.mk true "/a").path_,
              StatArg.borrowed (some statZero))
          else none,
        deletes := 1 } ∧
    dataCompletion (-4) (some "v") (some statZero) ⟨true, "/a"⟩ =
      (if (CompletionContext.mk true "/a").callbackPresent then
        some { callbackArgs :=
                 some (-4, (CompletionContext.mk true "/a").path_,
                   (if (-4 : Int) = rcOk then (some "v").getD "" else ""),
                   StatArg.owned
                     (if (-4 : Int) = rcOk then (some statZero).getD statZero
                      else statZero)),
               deletes := 1 }
      else none) ∧
    childrenCompletion (-4) (some ["c"]) (some statZero) ⟨true, "/a"⟩ =
      some { callbackArgs :=
               if (CompletionContext.mk true "/a").callbackPresent then
                 some (-4, (CompletionContext.mk true "/a").path_,
                   (if (-4 : Int) = rcOk then (some ["c"]).getD [] else []),
                   StatArg.borrowed (some statZero))
               else none,
             deletes := 1 } ∧
    aclCompletion (-4) (some []) (some statZero) ⟨true, "/a"⟩ =
      { callbackArgs :=
          if (CompletionContext.mk true "/a").callbackPresent then
            some (-4, (CompletionContext.mk true "/a").path_,
              AclArg.borrowed (some []), StatArg.borrowed (some statZero))
          else none,
        deletes := 1 } ∧
    authCompletion (-4) ⟨true, "digest", "user:pass"⟩ =
      (if (AuthCompletionContext.mk true "digest" "user:pass").callbackPresent then
        some { callbackArgs :=
                 some (-4, (AuthCompletionContext.mk true "digest" "user:pass").scheme_,
                   (AuthCompletionContext.mk true "digest" "user:pass").cert_),
               deletes := 1 }
      else none) ∧
    syncCompletion (-4) (some "v") ⟨true, "/a"⟩ =
      { callbackArgs :=
          if (CompletionContext.mk true "/a").callbackPresent then
            some (-4, (CompletionContext.mk true "/a").path_)
          else none,
        deletes := 1 } :=
  C2_payload_copy_discipline (-4) (some "v") (some "v") (some "v")
    (some statZero) (some statZero) (some statZero) (some ["c"]) (some [])
    ⟨true, "/a"⟩ ⟨true, "digest", "user:pass"⟩
    (fun h => absurd h (by decide)) (fun h => absurd h (by decide))
    (fun h => absurd h (by decide)) (fun h => absurd h (by decide))

/-- C4: for a session event, a recognized delivered state (Expired,
SessionAuthFailed, Connecting, Connected) is stored into the handle before
the watch object's `process` runs — the state observable at the `process`
invocation (the fourth `processArgs` component) and the final handle state
both equal the delivered value — while any unrecognized state value (e.g.
9999) makes the dispatcher abort (`none`) without updating the handle
state. -/
theorem C4_session_state_dispatch (s hs : Int) (path : String) (ctx : WatchContext) :
    watchCallback Event.Session s path (some ctx) hs =
      (if validState s then
        some { finalState := s,
               processArgs :=
                 if ctx.watchPresent then some (Event.Session, s, path, s) else none,
               contextDeleted := ctx.deleteAfterCallback_ }
      else none) ∧
    validState 9999 = false ∧
    validState State.Expired = true ∧
    validState State.SessionAuthFailed = true ∧
    validState State.Connecting = true ∧
    validState State.Connected = true := by
  refine ⟨?_, by decide, by decide, by decide, by decide, by decide⟩
  simp [watchCallback]

/-- C9: `ZooKeeperImpl::get` passes `&watchCallback` to the engine
unconditionally — even with a null watch object, in which case the
registered `WatchContext*` is NULL although `watchCallback` asserts its
context non-NULL (aborting, modelled `none`); by contrast `exists` and
`getChildren` pass a watcher function exactly when a watch object was
supplied. -/
theorem C9_get_passes_watcher_unconditionally (b : Bool) (etype s hs : Int)
    (path : String) :
    (getWatchArgs b).watcherFnPassed = true ∧
    (getWatchArgs false).watcherCtx = none ∧
    watchCallback etype s path none hs = none ∧
    (existsWatchArgs b).watcherFnPassed = b ∧
    (getChildrenWatchArgs b).watcherFnPassed = b ∧
    (existsWatchArgs b).watcherCtx.isSome = b ∧
    (getChildrenWatchArgs b).watcherCtx.isSome = b ∧
    (getWatchArgs b).watcherCtx.isSome = b := by
  cases b <;>
    simp [getWatchArgs, existsWatchArgs, getChildrenWatchArgs, watchCallback]

/-- C5: synchronous-adapter round-trip.  The completed flag starts false;
once `ExistsCallback::processResult(rc, path, stat)` has run the flag is
set (so `waitForCompleted` returns) and the blocking
`exists(path, watch, stat*)` call returns exactly `rc`; when `rc` is `Ok`
and a non-null caller `Stat` slot was supplied the delivered stat has been
copied into it, and when `rc` is not `Ok` the caller's slot is left
unchanged.  Engine contract assumed: a success code comes with a non-NULL
stat. -/
theorem C5_exists_blocking_roundtrip (callerStat : Option Stat) (rc : Int)
    (path : String) (stat : Option Stat) (h : rc = rcOk → stat.isSome = true) :
    (ExistsCallback.new callerStat).completed_ = false ∧
    (ExistsCallback.new callerStat).processResult rc path stat =
      some ⟨rc, path,
        (if rc = rcOk then (if callerStat.isSome then stat else none) else callerStat),
        true⟩ ∧
    ExistsCallback.waitReturns ⟨rc, path,
      (if rc = rcOk then (if callerStat.isSome then stat else none) else callerStat),
      true⟩ ∧
    existsBlocking callerStat rc path stat =
      some (⟨rc, path,
        (if rc = rcOk then (if callerStat.isSome then stat else none) else callerStat),
        true⟩, rc) := by
  refine ⟨rfl, ?_, rfl, ?_⟩
  · by_cases hrc : rc = rcOk
    · rcases stat with _ | st
      · exact absurd (h hrc) (by simp)
      · simp [ExistsCallback.processResult, ExistsCallback.new, hrc]
    · simp [ExistsCallback.processResult, ExistsCallback.new, hrc]
  · by_cases hrc : rc = rcOk
    · rcases stat with _ | st
      · exact absurd (h hrc) (by simp)
      · simp [existsBlocking, ExistsCallback.processResult, ExistsCallback.new, hrc]
    · simp [existsBlocking, ExistsCallback.processResult, ExistsCallback.new, hrc]

/-- Witness for C5: a success delivery into a non-null caller slot. -/
theorem C5_exists_blocking_roundtrip_witness :
    (ExistsCallback.new (some statZero)).completed_ = false ∧
    (ExistsCallback.new (some statZero)).processResult 0 "/a" (some statZero) =
      some ⟨0, "/a",
        (if (0 : Int) = rcOk then
          (if (some statZero).isSome then some statZero else none)
         else some statZero),
        true⟩ ∧
    ExistsCallback.waitReturns ⟨0, "/a",
      (if (0 : Int) = rcOk then
        (if (some statZero).isSome then some statZero else none)
       else some statZero),
      true⟩ ∧
    existsBlocking (some statZero) 0 "/a" (some statZero) =
      some (⟨0, "/a",
        (if (0 : Int) = rcOk then
          (if (some statZero).isSome then some statZero else none)
         else some statZero),
        true⟩, 0) :=
  C5_exists_blocking_roundtrip (some statZero) 0 "/a" (some statZero)
    (fun _ => rfl)

/-- C3: startup-barrier invariant.  In every state reachable from
`start_threads` setting `threadsToWait = 2`, the counter equals 2 minus the
number of worker threads that have signaled (each decrements at most once,
tracked by its flag), so it never goes negative; `wait_for_others` (hence
the initiating `start_threads`) returns only in states where the counter is
zero and both workers have signaled, and each worker passes its own wait
loop only in such states. -/
theorem C3_startup_barrier (s : BarrierState) (h : BarrierReachable s) :
    s.threadsToWait =
      2 - ((if s.ioSignaled then (1 : Int) else 0) +
           (if s.compSignaled then (1 : Int) else 0)) ∧
    0 ≤ s.threadsToWait ∧
    (s.mainReturned = false ∨
      (s.threadsToWait = 0 ∧ s.ioSignaled = true ∧ s.compSignaled = true)) ∧
    (s.ioPassed = false ∨
      (s.threadsToWait = 0 ∧ s.ioSignaled = true ∧ s.compSignaled = true)) ∧
    (s.compPassed = false ∨
      (s.threadsToWait = 0 ∧ s.ioSignaled = true ∧ s.compSignaled = true)) := by
  induction h with
  | init => simp [initBarrier]
  | step hr hstep ih =>
    obtain ⟨ih1, ih2, ih3, ih4, ih5⟩ := ih
    rename_i s t
    cases hstep with
    | ioSignal h =>
      cases hcomp : s.compSignaled <;> simp_all
    | compSignal h =>
      cases hio : s.ioSignaled <;> simp_all
    | ioPass h1 h2 =>
      cases hcomp : s.compSignaled <;> simp_all
    | compPass h1 h2 =>
      cases hio : s.ioSignaled <;> simp_all
    | mainReturn h =>
      cases hio : s.ioSignaled <;> cases hcomp : s.compSignaled <;>
        simp_all

/-- Witness for C3 at the initial barrier state. -/
theorem C3_startup_barrier_witness :
    initBarrier.threadsToWait =
      2 - ((if initBarrier.ioSignaled then (1 : Int) else 0) +
           (if initBarrier.compSignaled then (1 : Int) else 0)) ∧
    0 ≤ initBarrier.threadsToWait ∧
    (initBarrier.mainReturned = false ∨
      (initBarrier.threadsToWait = 0 ∧ initBarrier.ioSignaled = true ∧
       initBarrier.compSignaled = true)) ∧
    (initBarrier.ioPassed = false ∨
      (initBarrier.threadsToWait = 0 ∧ initBarrier.ioSignaled = true ∧
       initBarrier.compSignaled = true)) ∧
    (initBarrier.compPassed = false ∨
      (initBarrier.threadsToWait = 0 ∧ initBarrier.ioSignaled = true ∧
       initBarrier.compSignaled = true)) :=
  C3_startup_barrier initBarrier BarrierReachable.init

/-- C7: FIFO delivery.  In every reachable producer/consumer state the
delivered sequence, the pending queue and the records still to be produced
concatenate to exactly the production order: completions are delivered to
user callbacks in the order the I/O thread enqueued them, never reordered,
coalesced, dropped or duplicated. -/
theorem C7_completion_fifo (p0 : List CompletionRecord) (s : QueueState)
    (h : QueueReachable p0 s) :
    s.delivered ++ s.queue ++ s.toProduce = p0 := by
  induction h with
  | init => simp
  | step hr hstep ih =>
    cases hstep with
    | enqueue r rest q d => simp_all
    | deliver p r rest d => simp_all

/-- Witness for C7: a complete two-record run (enqueue 1, deliver 1,
enqueue 2, deliver 2) delivers exactly the production order. -/
theorem C7_completion_fifo_witness :
    (QueueState.mk [] [] [⟨1, 0, 0⟩, ⟨2, 0, 0⟩]).delivered ++
      (QueueState.mk [] [] [⟨1, 0, 0⟩, ⟨2, 0, 0⟩]).queue ++
      (QueueState.mk [] [] [⟨1, 0, 0⟩, ⟨2, 0, 0⟩]).toProduce =
    [⟨1, 0, 0⟩, ⟨2, 0, 0⟩] :=
  C7_completion_fifo [⟨1, 0, 0⟩, ⟨2, 0, 0⟩] (QueueState.mk [] [] [⟨1, 0, 0⟩, ⟨2, 0, 0⟩])
    (QueueReachable.step
      (QueueReachable.step
        (QueueReachable.step
          (QueueReachable.step QueueReachable.init
            (QueueStep.enqueue ⟨1, 0, 0⟩ [⟨2, 0, 0⟩] [] []))
          (QueueStep.deliver [⟨2, 0, 0⟩] ⟨1, 0, 0⟩ [] []))
        (QueueStep.enqueue ⟨2, 0, 0⟩ [] [] [⟨1, 0, 0⟩]))
      (QueueStep.deliver [] ⟨2, 0, 0⟩ [] [⟨1, 0, 0⟩]))

end ZkCpp
